import Mathlib

/-!
  Verification of the sondage repository: a shallow embedding of the poll
  application in src/sondage_clone/app.py (vote submission, duplicate
  detection, aggregation, recommendation) and of the weather-code table in
  src/web_app.py and src/app.py, with theorems settling the frozen claims.

  Conventions of the embedding:
  * SQLite rows become Lean structures; a NULL or empty participant_email
    is modelled as the empty string, matching the code, which only ever
    compares emails through COALESCE(participant_email, ...) = ... or
    through exact equality with a non-empty normalized value.
  * Timestamps are integers; datetime.fromisoformat is an external
    collaborator and is passed in as a parameter parseIso, so its failure
    (ValueError) is the parameter returning none.
  * The committed database state is a list of vote rows.  A request that
    returns before db.commit() leaves the committed state untouched: the
    connection is closed at request teardown without commit, which rolls
    back any pending DELETE.  The vote function therefore returns the
    original row list on every rejection path and the new row list only on
    the paths that reach db.commit().
  * Python str.strip/lower and SQLite TRIM/LOWER/COLLATE NOCASE are
    modelled with strTrim and strToLower below, which work on the
    underlying character lists (ASCII case folding, as in SQLite NOCASE).
-/

namespace Sondage

/-- One row of the polls table (the columns the vote logic reads). -/
structure Poll where
  id : Nat
  token : String
  responseMode : String
  deadlineAt : Option String
deriving Repr, DecidableEq

/-- One row of the slots table: a poll option with label and ordinal. -/
structure Slot where
  id : Nat
  pollId : Nat
  label : String
  position : Nat
deriving Repr, DecidableEq

/-- One row of the votes table (the columns the vote logic reads and
writes); a NULL participant_email is the empty string. -/
structure VoteRow where
  pollId : Nat
  slotId : Nat
  participantName : String
  participantEmail : String
  choice : String
  comment : String
deriving Repr, DecidableEq

/-- The relational store: polls and slots are read-only for the vote
endpoint; votes is the mutable table. -/
structure Db where
  polls : List Poll
  slots : List Slot
  votes : List VoteRow
deriving Repr, DecidableEq

/-- Python str.strip on the character list of a string: whitespace
removed from both ends.  (The core String.trim is defined by well-founded
recursion over byte positions, which the kernel cannot evaluate, so the
embedding works on the underlying character list.) -/
def trimChars (cs : List Char) : List Char :=
  (((cs.dropWhile Char.isWhitespace).reverse).dropWhile Char.isWhitespace).reverse

/-- Python str.strip. -/
def strTrim (s : String) : String :=
  String.mk (trimChars s.data)

/-- Python str.lower, with ASCII case folding (also the folding of SQLite
LOWER and COLLATE NOCASE). -/
def strToLower (s : String) : String :=
  String.mk (s.data.map Char.toLower)

/-- Python s[:n]: the first n characters. -/
def strTake (s : String) (n : Nat) : String :=
  String.mk (s.data.take n)

/-- Python s.isdigit() followed by int(s): some value exactly when the
string is non-empty and all digits. -/
def strToNatQ (s : String) : Option Nat :=
  if s.data ≠ [] ∧ s.data.all Char.isDigit then
    some (s.data.foldl (fun n c => 10 * n + (c.toNat - 48)) 0)
  else none

/-- Character admissible in the email regex classes: anything that is not
whitespace and not the at sign, as in the class [^\s@]. -/
def emailOkChar (c : Char) : Bool :=
  !c.isWhitespace && c != '@'

/-- EMAIL_REGEX from app.py: ^[^\s@]+@[^\s@]+\.[^\s@]+$ .  A string
matches exactly when it splits at its first at sign into a non-empty local
part and a domain, both made of admissible characters (which rules out any
further at sign), and the domain contains a dot neither at its first nor
at its last position. -/
def emailRegexMatch (s : String) : Bool :=
  let localPart := s.data.takeWhile fun c => c ≠ '@'
  match s.data.drop localPart.length with
  | [] => false
  | _atSign :: domainPart =>
    localPart ≠ [] && localPart.all emailOkChar &&
      domainPart.all emailOkChar &&
      ((domainPart.drop 1).dropLast.contains '.')

/-- normalize_response_mode from app.py: strip and lowercase, map the
legacy availability mode to multiple, keep single and multiple, default
everything else to single. -/
def normalize_response_mode (rawMode : Option String) : String :=
  let mode := strToLower (strTrim (rawMode.getD ""))
  if mode = "availability" then "multiple"
  else if mode = "single" ∨ mode = "multiple" then mode
  else "single"

/-- is_deadline_passed from app.py: a missing or empty deadline is never
passed; a deadline that fails to parse (ValueError) is never passed; a
parsed deadline is passed when the current UTC time is strictly later. -/
def is_deadline_passed (parseIso : String → Option Int) (nowUtc : Int)
    (deadlineAt : Option String) : Bool :=
  match deadlineAt with
  | none => false
  | some d =>
    if d = "" then false
    else
      match parseIso d with
      | some deadline => nowUtc > deadline
      | none => false

/-- Boolean form of the ORDER BY position ASC, id ASC key on slots. -/
def slotLeB (a b : Slot) : Bool :=
  if a.position = b.position then a.id ≤ b.id else a.position < b.position

/-- The slot display order as a relation. -/
def SlotLe (a b : Slot) : Prop := slotLeB a b = true

instance : DecidableRel SlotLe :=
  fun a b => inferInstanceAs (Decidable (slotLeB a b = true))

/-- get_poll_slots from app.py: the slots of one poll, ordered by
position then id (a stable sort of the filtered table, as SQLite ORDER BY
produces). -/
def getPollSlots (slots : List Slot) (pollId : Nat) : List Slot :=
  List.insertionSort SlotLe (slots.filter fun s => s.pollId == pollId)

/-- The duplicate-ballot lookup the vote endpoint runs (app.py lines
1255-1276): with a non-empty normalized email, an exact email match within
the poll; otherwise a COLLATE NOCASE name match among rows of the poll
whose email field is empty. -/
def duplicateVoteExists (votes : List VoteRow) (pollId : Nat)
    (name email : String) : Bool :=
  if email ≠ "" then
    votes.any fun v => v.pollId == pollId && v.participantEmail == email
  else
    votes.any fun v =>
      v.pollId == pollId && v.participantEmail == "" &&
        strToLower v.participantName == strToLower name

/-- The DELETE the vote endpoint runs when replacing a ballot (app.py
lines 1283-1297): remove every row of the poll matching the identity key,
by exact email for an emailed submission, by NOCASE name among empty-email
rows otherwise. -/
def deleteBallot (votes : List VoteRow) (pollId : Nat)
    (name email : String) : List VoteRow :=
  if email ≠ "" then
    votes.filter fun v =>
      !(v.pollId == pollId && v.participantEmail == email)
  else
    votes.filter fun v =>
      !(v.pollId == pollId && v.participantEmail == "" &&
        strToLower v.participantName == strToLower name)

/-- The outcome of one POST /poll/token/vote request, one constructor per
flash-and-redirect exit of the handler (CSRF, a session concern, is not
modelled). -/
inductive VoteOutcome where
  | pollNotFound
  | pollClosed
  | consentRequired
  | nameRequired
  | invalidEmail
  | noSlots
  | duplicateVote
  | chooseOption
  | invalidOption
  | updated
  | recorded
deriving Repr, DecidableEq

/-- The form fields the vote handler reads.  rgpdVote and
replaceExistingVote model the on checkbox comparisons; selectedSlot and
selectedSlots are the raw string values of the single-mode radio and the
multiple-mode checkbox list. -/
structure VoteForm where
  participantName : String
  participantEmail : String
  comment : String
  rgpdVote : Bool
  replaceExistingVote : Bool
  selectedSlot : String
  selectedSlots : List String
deriving Repr, DecidableEq

/-- The row the INSERT of app.py lines 1333-1339 writes for one slot:
choice is always yes, the name is trimmed then capped at 80 characters,
the email trimmed then lowercased, the comment trimmed then capped at 280
characters. -/
def insertRow (pollId slotId : Nat) (form : VoteForm) : VoteRow :=
  { pollId := pollId, slotId := slotId,
    participantName := strTake (strTrim form.participantName) 80,
    participantEmail := strToLower (strTrim form.participantEmail),
    choice := "yes",
    comment := strTake (strTrim form.comment) 280 }

/-- The insert loop of app.py lines 1323-1339 in single mode: one row for
the slot equal to the selected id, none for the others. -/
def singleModeRows (pollId : Nat) (slots : List Slot) (selectedSlotId : Nat)
    (form : VoteForm) : List VoteRow :=
  slots.filterMap fun slot =>
    if slot.id = selectedSlotId then some (insertRow pollId slot.id form)
    else none

/-- The multiple-mode selection of app.py lines 1315-1321: keep the posted
values that parse as digits and name a slot of this poll; everything else
is silently dropped. -/
def selectedMultiple (form : VoteForm) (allowedSlotIds : List Nat) : List Nat :=
  (form.selectedSlots.filterMap strToNatQ).filter fun slotId =>
    allowedSlotIds.contains slotId

/-- The insert loop of app.py lines 1323-1339 in multiple mode: one row
per slot whose id was selected. -/
def multipleModeRows (pollId : Nat) (slots : List Slot) (sel : List Nat)
    (form : VoteForm) : List VoteRow :=
  slots.filterMap fun slot =>
    if sel.contains slot.id then some (insertRow pollId slot.id form)
    else none

/-- The vote endpoint, app.py lines 1213-1350, as a function from the
committed votes table to (outcome, committed votes table).  Every early
return happens before db.commit(), and the connection is closed at request
teardown without committing, so the pending DELETE of a replaced ballot is
rolled back on the single-mode validation exits: those paths return the
original table.  The Python locals participant_name (trimmed then capped
at 80 characters), participant_email (trimmed then lowercased), slots,
duplicate_vote and allowed_slot_ids are inlined at each use. -/
def vote (parseIso : String → Option Int) (nowUtc : Int) (db : Db)
    (token : String) (form : VoteForm) : VoteOutcome × List VoteRow :=
  match db.polls.find? (fun p => p.token == token) with
  | none => (.pollNotFound, db.votes)
  | some poll =>
    if is_deadline_passed parseIso nowUtc poll.deadlineAt then
      (.pollClosed, db.votes)
    else if !form.rgpdVote then
      (.consentRequired, db.votes)
    else if strTrim form.participantName = "" then
      (.nameRequired, db.votes)
    else if strToLower (strTrim form.participantEmail) ≠ "" &&
        !emailRegexMatch (strToLower (strTrim form.participantEmail)) then
      (.invalidEmail, db.votes)
    else if getPollSlots db.slots poll.id = [] then
      (.noSlots, db.votes)
    else if duplicateVoteExists db.votes poll.id
          (strTake (strTrim form.participantName) 80)
          (strToLower (strTrim form.participantEmail)) &&
        !form.replaceExistingVote then
      (.duplicateVote, db.votes)
    else if normalize_response_mode (some poll.responseMode) = "single" then
      match strToNatQ (strTrim form.selectedSlot) with
      | none => (.chooseOption, db.votes)
      | some selectedSlotId =>
        if !((getPollSlots db.slots poll.id).map Slot.id).contains selectedSlotId then
          (.invalidOption, db.votes)
        else
          (if duplicateVoteExists db.votes poll.id
                (strTake (strTrim form.participantName) 80)
                (strToLower (strTrim form.participantEmail)) &&
              form.replaceExistingVote then .updated
           else .recorded,
           (if duplicateVoteExists db.votes poll.id
                (strTake (strTrim form.participantName) 80)
                (strToLower (strTrim form.participantEmail)) then
              deleteBallot db.votes poll.id
                (strTake (strTrim form.participantName) 80)
                (strToLower (strTrim form.participantEmail))
            else db.votes) ++
            singleModeRows poll.id (getPollSlots db.slots poll.id)
              selectedSlotId form)
    else
      (if duplicateVoteExists db.votes poll.id
            (strTake (strTrim form.participantName) 80)
            (strToLower (strTrim form.participantEmail)) &&
          form.replaceExistingVote then .updated
       else .recorded,
       (if duplicateVoteExists db.votes poll.id
            (strTake (strTrim form.participantName) 80)
            (strToLower (strTrim form.participantEmail)) then
          deleteBallot db.votes poll.id
            (strTake (strTrim form.participantName) 80)
            (strToLower (strTrim form.participantEmail))
        else db.votes) ++
        multipleModeRows poll.id (getPollSlots db.slots poll.id)
          (selectedMultiple form ((getPollSlots db.slots poll.id).map Slot.id))
          form)

/-- One row of the aggregate the results page shows: an option with its
yes and no tallies. -/
structure SummaryRow where
  id : Nat
  label : String
  yes_count : Nat
  no_count : Nat
deriving Repr, DecidableEq

/-- aggregate_results from app.py (lines 499-515): one row per slot of the
poll, in position-then-id order, counting the vote rows joined on slot_id
whose choice is yes, respectively no. -/
def aggregate_results (db : Db) (pollId : Nat) : List SummaryRow :=
  (getPollSlots db.slots pollId).map fun s =>
    { id := s.id, label := s.label,
      yes_count :=
        (db.votes.filter fun v => v.slotId == s.id && v.choice == "yes").length,
      no_count :=
        (db.votes.filter fun v => v.slotId == s.id && v.choice == "no").length }

/-- Code-point comparison of character lists, as Python compares strings:
the empty list is least, and otherwise heads decide unless equal. -/
def charListLe : List Char → List Char → Bool
  | [], _ => true
  | _ :: _, [] => false
  | a :: as, b :: bs =>
    if a < b then true else if b < a then false else charListLe as bs

/-- Boolean form of the display sort key of view_poll line 1049: the
tuple (-yes_count, no_count, label.lower()) compared lexicographically,
so descending yes, ascending no, case-insensitive label. -/
def summaryLe (a b : SummaryRow) : Bool :=
  if a.yes_count = b.yes_count then
    if a.no_count = b.no_count then
      charListLe (strToLower a.label).data (strToLower b.label).data
    else decide (a.no_count < b.no_count)
  else decide (b.yes_count < a.yes_count)

/-- The display sort order as a relation. -/
def SummaryLe (a b : SummaryRow) : Prop := summaryLe a b = true

instance : DecidableRel SummaryLe :=
  fun a b => inferInstanceAs (Decidable (summaryLe a b = true))

/-- summary_sorted of view_poll: the aggregate rows, stably sorted by the
display key (Python sorted is a stable sort; so is insertion sort). -/
def summary_sorted (db : Db) (pollId : Nat) : List SummaryRow :=
  List.insertionSort SummaryLe (aggregate_results db pollId)

/-- Strict comparison under the recommendation key (yes_count, -no_count):
the comparison Python max performs between a candidate and the current
best. -/
def recKeyLt (a b : SummaryRow) : Bool :=
  decide (a.yes_count < b.yes_count) ||
    (decide (a.yes_count = b.yes_count) && decide (b.no_count < a.no_count))

/-- Python max over a non-empty list with the recommendation key: scan
left to right, replace the best only on a strictly greater key, so the
first maximal element wins. -/
def maxByRecKey (first : SummaryRow) (rest : List SummaryRow) : SummaryRow :=
  rest.foldl (fun best row => if recKeyLt best row then row else best) first

/-- recommendation from app.py lines 430-433: none on an empty summary,
otherwise the first row maximizing (yes_count, -no_count). -/
def recommendation : List SummaryRow → Option SummaryRow
  | [] => none
  | r :: rs => some (maxByRecKey r rs)

/-- The distinct-voter key of the my_polls query (app.py lines 843-857):
the lowercased trimmed email when non-empty, otherwise the lowercased
trimmed name behind a name: prefix. -/
def voterKey (v : VoteRow) : String :=
  if strTrim v.participantEmail ≠ "" then strToLower (strTrim v.participantEmail)
  else "name:" ++ strToLower (strTrim v.participantName)

/-- Number of distinct voter keys among the vote rows of one poll. -/
def distinctVoterCount (votes : List VoteRow) (pollId : Nat) : Nat :=
  (((votes.filter fun v => v.pollId == pollId).map voterKey).dedup).length

/-- The votes tables reachable through the vote endpoint alone, for a
fixed poll and slot configuration, starting from an empty table: each step
is one POST of the handler with arbitrary clock, parser, token and form. -/
inductive ReachableVotes (polls : List Poll) (slots : List Slot) :
    List VoteRow → Prop where
  | init : ReachableVotes polls slots []
  | step (votes : List VoteRow) (parseIso : String → Option Int)
      (nowUtc : Int) (token : String) (form : VoteForm) :
      ReachableVotes polls slots votes →
      ReachableVotes polls slots
        (vote parseIso nowUtc ⟨polls, slots, votes⟩ token form).2

/-- WEATHER_CODES, the fixed code-to-French-description table, identical
in src/web_app.py lines 12-41 and src/app.py lines 11-40. -/
def WEATHER_CODES : List (Int × String) :=
  [(0, "Ciel dégagé"),
   (1, "Principalement dégagé"),
   (2, "Partiellement nuageux"),
   (3, "Couvert"),
   (45, "Brouillard"),
   (48, "Brouillard givrant"),
   (51, "Bruine légère"),
   (53, "Bruine modérée"),
   (55, "Bruine dense"),
   (56, "Bruine verglaçante légère"),
   (57, "Bruine verglaçante dense"),
   (61, "Pluie faible"),
   (63, "Pluie modérée"),
   (65, "Pluie forte"),
   (66, "Pluie verglaçante légère"),
   (67, "Pluie verglaçante forte"),
   (71, "Neige faible"),
   (73, "Neige modérée"),
   (75, "Neige forte"),
   (77, "Grains de neige"),
   (80, "Averses faibles"),
   (81, "Averses modérées"),
   (82, "Averses violentes"),
   (85, "Averses de neige faibles"),
   (86, "Averses de neige fortes"),
   (95, "Orage"),
   (96, "Orage avec grêle faible"),
   (99, "Orage avec grêle forte")]

/-- WEATHER_CODES.get(code, fallback) as used at web_app.py lines 161 and
175 and app.py lines 279 and 296: table lookup with the French fallback
string for unknown codes. -/
def weatherDescription (code : Int) : String :=
  match WEATHER_CODES.lookup code with
  | some description => description
  | none => "Description indisponible"

/-- Daily weather label of web_app.py lines 156-161: a daily entry whose
code is absent or not an integer is coerced to -1, which is not a table
key, before the lookup with fallback. -/
def dayWeatherLabel (rawCode : Option Int) : String :=
  weatherDescription (rawCode.getD (-1))

/-- The duplicate-participant condition in the words of the
specification, for comparison with the lookup the code runs: either the
submitter supplied a non-empty email and some existing row of the same
poll carries that email after trim-and-lowercase normalization, or the
submitter supplied no email and some row of the same poll has an empty
email field and a case-insensitively equal participant name (the resolved
name, trimmed and capped at 80 characters). -/
def duplicateSpec (votes : List VoteRow) (pollId : Nat)
    (name rawEmail : String) : Prop :=
  (strToLower (strTrim rawEmail) ≠ "" ∧
    ∃ v ∈ votes, v.pollId = pollId ∧
      v.participantEmail = strToLower (strTrim rawEmail)) ∨
  (strToLower (strTrim rawEmail) = "" ∧
    ∃ v ∈ votes, v.pollId = pollId ∧ v.participantEmail = "" ∧
      strToLower v.participantName = strToLower name)

/-- A parse function that fails on every string, as
datetime.fromisoformat does on non-ISO input. -/
def pe0 : String → Option Int := fun _ => none

/-- Fixture: a single-mode poll without deadline. -/
def poll1 : Poll :=
  { id := 1, token := "t", responseMode := "single", deadlineAt := none }

/-- Fixture: first option of poll1. -/
def slotA : Slot := { id := 1, pollId := 1, label := "A", position := 1 }

/-- Fixture: second option of poll1. -/
def slotB : Slot := { id := 2, pollId := 1, label := "B", position := 2 }

/-- Fixture: the store holding poll1 with options A and B and no votes. -/
def db0 : Db := { polls := [poll1], slots := [slotA, slotB], votes := [] }

/-- Fixture: Alice, no email, votes for option A with consent. -/
def aliceForm : VoteForm :=
  { participantName := "Alice", participantEmail := "", comment := "",
    rgpdVote := true, replaceExistingVote := false,
    selectedSlot := "1", selectedSlots := [] }

/-- Fixture: the votes table after Alice voted for A in db0. -/
def votes1 : List VoteRow := (vote pe0 0 db0 "t" aliceForm).2

/-- Fixture: the store after Alice voted for A. -/
def db1 : Db := { polls := [poll1], slots := [slotA, slotB], votes := votes1 }

/-- Fixture: Alice again, written in capitals and without the replace
flag. -/
def aliceAgainForm : VoteForm :=
  { participantName := "ALICE", participantEmail := "", comment := "",
    rgpdVote := true, replaceExistingVote := false,
    selectedSlot := "2", selectedSlots := [] }

/-- Fixture: a submission without the consent checkbox. -/
def noConsentForm : VoteForm :=
  { participantName := "Alice", participantEmail := "", comment := "",
    rgpdVote := false, replaceExistingVote := false,
    selectedSlot := "2", selectedSlots := [] }

/-- Fixture: a multiple-mode poll without deadline. -/
def poll2 : Poll :=
  { id := 2, token := "u", responseMode := "multiple", deadlineAt := none }

/-- Fixture: the only option of poll2. -/
def slotX : Slot := { id := 3, pollId := 2, label := "X", position := 1 }

/-- Fixture: the store holding poll2 with option X and no votes. -/
def db2 : Db := { polls := [poll2], slots := [slotX], votes := [] }

/-- Fixture: Bob selects an option id that does not belong to poll2. -/
def bobForm : VoteForm :=
  { participantName := "Bob", participantEmail := "", comment := "",
    rgpdVote := true, replaceExistingVote := false,
    selectedSlot := "", selectedSlots := ["999"] }

/-- Fixture: a 100-character name. -/
def longName : String := String.mk (List.replicate 100 'a')

/-- Fixture: a voter whose name exceeds the 80-character cap. -/
def longNameForm : VoteForm :=
  { participantName := longName, participantEmail := "", comment := "",
    rgpdVote := true, replaceExistingVote := false,
    selectedSlot := "1", selectedSlots := [] }

/-- Fixture: a poll whose stored deadline string is not ISO-8601. -/
def poll3 : Poll :=
  { id := 3, token := "w", responseMode := "single",
    deadlineAt := some "not-a-date" }

/-- Fixture: option of poll3. -/
def slotW : Slot := { id := 4, pollId := 3, label := "W", position := 1 }

/-- Fixture: the store holding poll3 with option W and no votes. -/
def db3 : Db := { polls := [poll3], slots := [slotW], votes := [] }

/-- Fixture: Carol votes for option 4 of poll3. -/
def carolForm : VoteForm :=
  { participantName := "Carol", participantEmail := "", comment := "",
    rgpdVote := true, replaceExistingVote := false,
    selectedSlot := "4", selectedSlots := [] }

/-- Fixture: Bob selects the real option 3 of poll2 together with the
foreign id 999. -/
def bobBothForm : VoteForm :=
  { participantName := "Bob", participantEmail := "", comment := "",
    rgpdVote := true, replaceExistingVote := false,
    selectedSlot := "", selectedSlots := ["3", "999"] }

/-- Defining equation of the code-point comparison on two cons cells. -/
theorem charListLe_cons (a b : Char) (as bs : List Char) :
    charListLe (a :: as) (b :: bs) =
      if a < b then true else if b < a then false else charListLe as bs :=
  rfl

/-- Head characterization of the code-point comparison. -/
theorem charListLe_cons_iff (a b : Char) (as bs : List Char) :
    charListLe (a :: as) (b :: bs) = true ↔
      a < b ∨ (a = b ∧ charListLe as bs = true) := by
  rw [charListLe_cons]
  rcases lt_trichotomy a b with h | h | h
  · simp [h]
  · simp [h, lt_irrefl]
  · simp [h, lt_asymm h, ne_of_gt h]

/-- The code-point comparison is total. -/
theorem charListLe_total : ∀ xs ys : List Char,
    charListLe xs ys = true ∨ charListLe ys xs = true
  | [], _ => Or.inl rfl
  | _ :: _, [] => Or.inr rfl
  | a :: as, b :: bs => by
    rcases lt_trichotomy a b with h | h | h
    · exact Or.inl ((charListLe_cons_iff ..).mpr (Or.inl h))
    · subst h
      rcases charListLe_total as bs with h' | h'
      · exact Or.inl ((charListLe_cons_iff ..).mpr (Or.inr ⟨rfl, h'⟩))
      · exact Or.inr ((charListLe_cons_iff ..).mpr (Or.inr ⟨rfl, h'⟩))
    · exact Or.inr ((charListLe_cons_iff ..).mpr (Or.inl h))

/-- The code-point comparison is transitive. -/
theorem charListLe_trans : ∀ xs ys zs : List Char,
    charListLe xs ys = true → charListLe ys zs = true →
      charListLe xs zs = true
  | [], _, _, _, _ => rfl
  | _ :: _, [], _, h1, _ => by simp [charListLe] at h1
  | _ :: _, _ :: _, [], _, h2 => by simp [charListLe] at h2
  | a :: as, b :: bs, c :: cs, h1, h2 => by
    rcases (charListLe_cons_iff ..).mp h1 with hab | ⟨hab, h1'⟩ <;>
      rcases (charListLe_cons_iff ..).mp h2 with hbc | ⟨hbc, h2'⟩
    · exact (charListLe_cons_iff ..).mpr (Or.inl (lt_trans hab hbc))
    · exact (charListLe_cons_iff ..).mpr (Or.inl (hbc ▸ hab))
    · exact (charListLe_cons_iff ..).mpr (Or.inl (hab ▸ hbc))
    · exact (charListLe_cons_iff ..).mpr
        (Or.inr ⟨hab.trans hbc, charListLe_trans as bs cs h1' h2'⟩)

/-- Unfolding of the display sort key as a lexicographic disjunction. -/
theorem summaryLe_iff (a b : SummaryRow) :
    summaryLe a b = true ↔
      b.yes_count < a.yes_count ∨
        (a.yes_count = b.yes_count ∧
          (a.no_count < b.no_count ∨
            (a.no_count = b.no_count ∧
              charListLe (strToLower a.label).data (strToLower b.label).data
                = true))) := by
  unfold summaryLe
  split_ifs with h1 h2 <;> simp_all

/-- The display sort key is total. -/
theorem summaryLe_total (a b : SummaryRow) :
    summaryLe a b = true ∨ summaryLe b a = true := by
  rw [summaryLe_iff, summaryLe_iff]
  rcases Nat.lt_trichotomy a.yes_count b.yes_count with h | h | h
  · right; exact Or.inl h
  · rcases Nat.lt_trichotomy a.no_count b.no_count with h' | h' | h'
    · left; exact Or.inr ⟨h, Or.inl h'⟩
    · rcases charListLe_total (strToLower a.label).data
        (strToLower b.label).data with hc | hc
      · left; exact Or.inr ⟨h, Or.inr ⟨h', hc⟩⟩
      · right; exact Or.inr ⟨h.symm, Or.inr ⟨h'.symm, hc⟩⟩
    · right; exact Or.inr ⟨h.symm, Or.inl h'⟩
  · left; exact Or.inl h

/-- The display sort key is transitive. -/
theorem summaryLe_trans (a b c : SummaryRow)
    (h1 : summaryLe a b = true) (h2 : summaryLe b c = true) :
    summaryLe a c = true := by
  rw [summaryLe_iff] at h1 h2 ⊢
  rcases h1 with h1 | ⟨e1, h1⟩
  · rcases h2 with h2 | ⟨e2, h2⟩
    · exact Or.inl (lt_trans h2 h1)
    · left; omega
  · rcases h2 with h2 | ⟨e2, h2⟩
    · left; omega
    · right
      refine ⟨by omega, ?_⟩
      rcases h1 with h1 | ⟨f1, h1⟩
      · rcases h2 with h2 | ⟨f2, h2⟩
        · left; omega
        · left; omega
      · rcases h2 with h2 | ⟨f2, h2⟩
        · left; omega
        · right
          exact ⟨by omega, charListLe_trans _ _ _ h1 h2⟩

instance : IsTotal SummaryRow SummaryLe := ⟨summaryLe_total⟩

instance : IsTrans SummaryRow SummaryLe := ⟨summaryLe_trans⟩

/-- A row earlier in the display order is never strictly greater later
under the recommendation key. -/
theorem recKeyLt_eq_false_of_summaryLe (a b : SummaryRow)
    (h : summaryLe a b = true) : recKeyLt a b = false := by
  rw [summaryLe_iff] at h
  unfold recKeyLt
  rcases h with h | ⟨e, h⟩
  · simp; omega
  · rcases h with h | ⟨f, _⟩ <;> simp <;> omega

/-- The recommendation key comparison is irreflexive. -/
theorem recKeyLt_self (a : SummaryRow) : recKeyLt a a = false := by
  unfold recKeyLt
  simp

/-- The Python max scan keeps its first element when no later element is
strictly greater. -/
theorem maxByRecKey_eq_first (first : SummaryRow) :
    ∀ rest : List SummaryRow,
      (∀ r ∈ rest, recKeyLt first r = false) →
        maxByRecKey first rest = first
  | [], _ => rfl
  | r :: rest, hall => by
    have hr : recKeyLt first r = false := hall r (List.mem_cons_self r rest)
    unfold maxByRecKey
    rw [List.foldl_cons, hr]
    simp only [Bool.false_eq_true, if_false]
    exact maxByRecKey_eq_first first rest
      (fun x hx => hall x (List.mem_cons_of_mem r hx))

/-- On a list sorted in the display order the recommendation is its first
element. -/
theorem recommendation_of_sorted (l : List SummaryRow)
    (hs : List.Sorted SummaryLe l) : recommendation l = l.head? := by
  cases l with
  | nil => rfl
  | cons h t =>
    have hall : ∀ r ∈ t, recKeyLt h r = false := fun r hr =>
      recKeyLt_eq_false_of_summaryLe h r (List.rel_of_sorted_cons hs r hr)
    simp [recommendation, maxByRecKey_eq_first h t hall]

/-- Rows surviving the replacement DELETE were in the table before it. -/
theorem mem_of_mem_deleteBallot {votes : List VoteRow} {pollId : Nat}
    {name email : String} {v : VoteRow}
    (h : v ∈ deleteBallot votes pollId name email) : v ∈ votes := by
  unfold deleteBallot at h
  split at h <;> exact (List.mem_filter.mp h).1

set_option maxHeartbeats 2000000 in
/-- Every run of the vote handler either leaves the committed table
exactly as it was or reports a recorded or updated ballot: no rejection
commits a write. -/
theorem vote_cases {pe : String → Option Int} {now : Int} {db : Db}
    {token : String} {form : VoteForm} {o : VoteOutcome} {vs : List VoteRow}
    (h : vote pe now db token form = (o, vs)) :
    vs = db.votes ∨ o = .updated ∨ o = .recorded := by
  unfold vote at h
  repeat' split at h
  all_goals (injection h with h1 h2; subst h1; subst h2)
  all_goals first
    | exact Or.inl rfl
    | exact Or.inr (Or.inl rfl)
    | exact Or.inr (Or.inr rfl)

set_option maxHeartbeats 2000000 in
/-- Every row in the table after one vote request is either a
pre-existing row or one the request inserted, and an inserted row carries
choice yes, the resolved participant name and the resolved email. -/
theorem vote_snd_mem {pe : String → Option Int} {now : Int} {db : Db}
    {token : String} {form : VoteForm} {o : VoteOutcome} {vs : List VoteRow}
    (h : vote pe now db token form = (o, vs)) :
    ∀ v ∈ vs,
      v ∈ db.votes ∨
        (v.choice = "yes" ∧
          v.participantName = strTake (strTrim form.participantName) 80 ∧
          v.participantEmail = strToLower (strTrim form.participantEmail)) := by
  intro v hv
  unfold vote at h
  repeat' split at h
  all_goals (injection h with h1 h2; subst h1; subst h2)
  all_goals first
    | exact Or.inl hv
    | (rcases List.mem_append.mp hv with hm | hm
       · first
           | exact Or.inl (mem_of_mem_deleteBallot hm)
           | exact Or.inl hm
       · rcases List.mem_filterMap.mp hm with ⟨slot, hslot, heq⟩
         split at heq
         · injection heq with heq2
           subst heq2
           exact Or.inr ⟨rfl, rfl, rfl⟩
         · cases heq)

/-- Every table reachable through the vote endpoint holds only yes
rows. -/
theorem reachable_all_yes {polls : List Poll} {slots : List Slot}
    {votes : List VoteRow} (h : ReachableVotes polls slots votes) :
    ∀ v ∈ votes, v.choice = "yes" := by
  induction h with
  | init => intro v hv; cases hv
  | step votes pe now token form _ ih =>
    intro v hv
    rcases vote_snd_mem rfl v hv with hold | ⟨hc, _, _⟩
    · exact ih v hold
    · exact hc

/-- With only yes rows in the table, every aggregate row has no_count
0. -/
theorem no_count_eq_zero_of_all_yes {db : Db}
    (hall : ∀ v ∈ db.votes, v.choice = "yes") (pollId : Nat) :
    ∀ r ∈ aggregate_results db pollId, r.no_count = 0 := by
  intro r hr
  unfold aggregate_results at hr
  rcases List.mem_map.mp hr with ⟨s, _, rfl⟩
  simp only [List.length_eq_zero]
  rw [List.filter_eq_nil_iff]
  intro v hv
  have hc := hall v hv
  simp [hc]

/-- Claim C8: for every integer weather code present in the fixed
code-to-French-description table the displayed description is exactly the
table string for that key, and for every code not in the table the
displayed description is the fallback string Description indisponible;
the lookup is a total function, so no error is raised. -/
theorem C8_weather_code_table :
    (∀ c d, WEATHER_CODES.lookup c = some d → weatherDescription c = d) ∧
      (∀ c, WEATHER_CODES.lookup c = none →
        weatherDescription c = "Description indisponible") := by
  constructor
  · intro c d h
    unfold weatherDescription
    rw [h]
  · intro c h
    unfold weatherDescription
    rw [h]

/-- Witness for C8 at the table code 95 and the unknown code 12345. -/
theorem C8_weather_code_table_witness :
    weatherDescription 95 = "Orage" ∧
      weatherDescription 12345 = "Description indisponible" :=
  ⟨C8_weather_code_table.1 95 "Orage" (by decide),
   C8_weather_code_table.2 12345 (by decide)⟩

/-- Claim C6: the displayed aggregate list is sorted by descending
yes_count, then ascending no_count, then case-insensitive label order
(the relation SummaryLe), and is a permutation of the aggregate rows;
being a pure function of the vote data, repeated aggregation over
identical data yields the identical ordering. -/
theorem C6_display_sort_order (db : Db) (pollId : Nat) :
    List.Sorted SummaryLe (summary_sorted db pollId) ∧
      List.Perm (summary_sorted db pollId) (aggregate_results db pollId) :=
  ⟨List.sorted_insertionSort SummaryLe (aggregate_results db pollId),
   List.perm_insertionSort SummaryLe (aggregate_results db pollId)⟩

/-- Claim C3: every vote submission that is rejected (any outcome other
than recorded or updated: duplicate without the replace flag, deadline
passed, missing consent, empty name, invalid email, no or invalid
selection in single mode, missing poll or options) leaves the committed
votes table exactly as it was before the attempt, so a prior ballot is
intact. -/
theorem C3_rejection_preserves_votes (pe : String → Option Int) (now : Int)
    (db : Db) (token : String) (form : VoteForm)
    (h1 : (vote pe now db token form).1 ≠ .updated)
    (h2 : (vote pe now db token form).1 ≠ .recorded) :
    (vote pe now db token form).2 = db.votes := by
  rcases vote_cases (rfl : vote pe now db token form = _) with h | h | h
  · exact h
  · exact absurd h h1
  · exact absurd h h2

/-- Witness for C3: Alice voting again without the replace flag is
rejected as a duplicate and the table is unchanged. -/
theorem C3_witness :
    (vote pe0 0 db1 "t" aliceAgainForm).2 = db1.votes :=
  C3_rejection_preserves_votes pe0 0 db1 "t" aliceAgainForm
    (by decide) (by decide)

/-- Claim C9: every row the vote endpoint writes has choice yes and
unpicked options produce no row, so in every votes table reachable
through the vote endpoint the aggregate no_count is 0 for every option of
every poll. -/
theorem C9_no_count_invariant {polls : List Poll} {slots : List Slot}
    {votes : List VoteRow} (h : ReachableVotes polls slots votes) :
    (∀ v ∈ votes, v.choice = "yes") ∧
      ∀ pollId, ∀ r ∈ aggregate_results ⟨polls, slots, votes⟩ pollId,
        r.no_count = 0 :=
  ⟨reachable_all_yes h,
   fun pollId =>
     @no_count_eq_zero_of_all_yes ⟨polls, slots, votes⟩
       (reachable_all_yes h) pollId⟩

/-- The one-step reachable state in which Alice voted for option A. -/
theorem reachable_votes1 : ReachableVotes [poll1] [slotA, slotB] votes1 :=
  ReachableVotes.step [] pe0 0 "t" aliceForm ReachableVotes.init

/-- Witness for C9 at the reachable state where Alice voted for A: the
row written for Alice says yes and the aggregate row of option B has
no_count 0. -/
theorem C9_witness :
    ({ pollId := 1, slotId := 1, participantName := "Alice",
       participantEmail := "", choice := "yes", comment := "" } :
        VoteRow).choice = "yes" ∧
      ({ id := 2, label := "B", yes_count := 0, no_count := 0 } :
          SummaryRow).no_count = 0 :=
  ⟨(C9_no_count_invariant reachable_votes1).1 _ (by decide),
   (C9_no_count_invariant reachable_votes1).2 1 _ (by decide)⟩

/-- Counterexample to claim C1 as stated: after the reachable state in
which Alice alone voted for option A, the poll has one distinct voter and
at least one recorded vote, yet some aggregate row (option B, with
yes_count 0 and no_count 0) has yes_count + no_count different from the
distinct voter count: the aggregator counts explicit no rows, which the
endpoint never writes, not implicit ones. -/
theorem C1_counterexample :
    votes1 ≠ [] ∧ distinctVoterCount votes1 1 = 1 ∧
      (aggregate_results db1 1).any
        (fun r => r.yes_count + r.no_count != distinctVoterCount votes1 1)
        = true := by
  decide

/-- Claim C1 amended: no_count counts the rows whose choice is the
literal string no; since the vote endpoint only writes yes rows, in every
reachable table the aggregate no_count is 0 and yes_count + no_count
equals yes_count, not the number of distinct voters. -/
theorem C1_amended_counts (polls : List Poll) (slots : List Slot)
    (votes : List VoteRow) (h : ReachableVotes polls slots votes)
    (pollId : Nat) :
    ∀ r ∈ aggregate_results ⟨polls, slots, votes⟩ pollId,
      r.yes_count + r.no_count = r.yes_count := by
  intro r hr
  have h0 :=
    @no_count_eq_zero_of_all_yes ⟨polls, slots, votes⟩
      (reachable_all_yes h) pollId r hr
  omega

/-- Witness for the amended C1 at the aggregate row of option B after
Alice voted. -/
theorem C1_amended_witness :
    ({ id := 2, label := "B", yes_count := 0, no_count := 0 } :
        SummaryRow).yes_count +
      ({ id := 2, label := "B", yes_count := 0, no_count := 0 } :
          SummaryRow).no_count =
      ({ id := 2, label := "B", yes_count := 0, no_count := 0 } :
          SummaryRow).yes_count :=
  C1_amended_counts [poll1] [slotA, slotB] votes1 reachable_votes1 1
    _ (by decide)

/-- Counterexample to claim C2 as stated: db0 holds a poll with two
options and no votes at all, yet recommendation applied to the sorted
aggregate returns an option instead of none. -/
theorem C2_counterexample :
    db0.votes = [] ∧
      (recommendation (summary_sorted db0 1)).isSome = true := by
  decide

/-- Claim C2 amended: the recommendation over the sorted aggregate is its
first element — hence deterministic, and maximal for the key
(yes_count, -no_count), ties resolving to the earlier sorted row — and it
is none exactly when the poll has no options; a poll with options but no
votes yields its first option, not none. -/
theorem C2_recommendation_first (db : Db) (pollId : Nat) :
    recommendation (summary_sorted db pollId) =
        (summary_sorted db pollId).head? ∧
      (recommendation (summary_sorted db pollId) = none ↔
        getPollSlots db.slots pollId = []) ∧
      ∀ rec, recommendation (summary_sorted db pollId) = some rec →
        ∀ r ∈ aggregate_results db pollId, recKeyLt rec r = false := by
  have hsorted : List.Sorted SummaryLe (summary_sorted db pollId) :=
    List.sorted_insertionSort SummaryLe (aggregate_results db pollId)
  have hperm :
      List.Perm (summary_sorted db pollId) (aggregate_results db pollId) :=
    List.perm_insertionSort SummaryLe (aggregate_results db pollId)
  have hhead : recommendation (summary_sorted db pollId) =
      (summary_sorted db pollId).head? :=
    recommendation_of_sorted _ hsorted
  refine ⟨hhead, ?_, ?_⟩
  · rw [hhead]
    have hnil : (summary_sorted db pollId).head? = none ↔
        summary_sorted db pollId = [] := by
      cases summary_sorted db pollId <;> simp
    rw [hnil]
    have hlen := hperm.length_eq
    constructor
    · intro h
      rw [h] at hlen
      have hagg : aggregate_results db pollId = [] := by
        cases hc : aggregate_results db pollId with
        | nil => rfl
        | cons a l => rw [hc] at hlen; simp at hlen
      unfold aggregate_results at hagg
      exact List.map_eq_nil_iff.mp hagg
    · intro h
      unfold summary_sorted aggregate_results
      rw [h]
      rfl
  · intro rec hrec r hr
    have hmem : r ∈ summary_sorted db pollId := hperm.mem_iff.mpr hr
    rw [hhead] at hrec
    cases hl : summary_sorted db pollId with
    | nil =>
      rw [hl] at hrec
      cases hrec
    | cons hd tl =>
      rw [hl] at hrec hmem hsorted
      have hde : hd = rec := by simpa using hrec
      subst hde
      rcases List.mem_cons.mp hmem with hre | htl
      · rw [hre]
        exact recKeyLt_self hd
      · exact recKeyLt_eq_false_of_summaryLe hd r
          (List.rel_of_sorted_cons hsorted r htl)

/-- Witness for the amended C2 after Alice voted: the recommendation is
the head of the sorted list, and the recommended row for option A is not
beaten by the row of option B. -/
theorem C2_recommendation_first_witness :
    recommendation (summary_sorted db1 1) = (summary_sorted db1 1).head? ∧
      recKeyLt { id := 1, label := "A", yes_count := 1, no_count := 0 }
        { id := 2, label := "B", yes_count := 0, no_count := 0 } = false :=
  ⟨(C2_recommendation_first db1 1).1,
   (C2_recommendation_first db1 1).2.2 _ (by decide) _ (by decide)⟩

set_option maxHeartbeats 1000000 in
/-- Claim C10: a poll whose deadline_at is a non-empty string that the
ISO-8601 parser rejects is treated as never closed: is_deadline_passed
silently absorbs the parse failure and returns false, and the vote
endpoint never rejects a submission of such a poll for its deadline. -/
theorem C10_unparseable_deadline (parse : String → Option Int) (now : Int)
    (d : String) (hne : d ≠ "") (hp : parse d = none) :
    is_deadline_passed parse now (some d) = false ∧
      ∀ db token form poll,
        db.polls.find? (fun p => p.token == token) = some poll →
        poll.deadlineAt = some d →
        (vote parse now db token form).1 ≠ .pollClosed := by
  have hdl : is_deadline_passed parse now (some d) = false := by
    simp [is_deadline_passed, hp, hne]
  refine ⟨hdl, ?_⟩
  intro db token form poll hfind hdead
  unfold vote
  simp only [hfind, hdead, hdl]
  repeat' split
  all_goals simp_all

/-- Witness for C10 on poll3, whose deadline string is not-a-date: the
deadline is not passed and Carol's submission is not rejected as
closed. -/
theorem C10_witness :
    is_deadline_passed pe0 0 (some "not-a-date") = false ∧
      (vote pe0 0 db3 "w" carolForm).1 ≠ .pollClosed :=
  ⟨(C10_unparseable_deadline pe0 0 "not-a-date" (by decide) rfl).1,
   (C10_unparseable_deadline pe0 0 "not-a-date" (by decide) rfl).2
     db3 "w" carolForm poll3 (by decide) rfl⟩

set_option maxHeartbeats 1000000 in
/-- Claim C7: once the poll is found, the deadline has not passed and
consent was given, the submission fails with the name validation error
exactly when the participant name is empty after trimming, regardless of
any email; every row a submission writes carries the trimmed name
truncated to 80 characters — truncation, never a rejection for
length. -/
theorem C7_name_validation (pe : String → Option Int) (now : Int) (db : Db)
    (token : String) (form : VoteForm) (poll : Poll)
    (hfind : db.polls.find? (fun p => p.token == token) = some poll)
    (hdl : is_deadline_passed pe now poll.deadlineAt = false)
    (hrgpd : form.rgpdVote = true) :
    ((vote pe now db token form).1 = .nameRequired ↔
      strTrim form.participantName = "") ∧
      (∀ v ∈ (vote pe now db token form).2,
        v ∈ db.votes ∨
          v.participantName = strTake (strTrim form.participantName) 80) ∧
      (strTake (strTrim form.participantName) 80).data.length ≤ 80 := by
  refine ⟨?_, ?_, ?_⟩
  · unfold vote
    simp only [hfind, hdl, hrgpd, Bool.not_true, Bool.false_eq_true, if_false]
    by_cases hname : strTrim form.participantName = ""
    · simp [hname]
    · simp only [hname, if_neg hname, iff_false]
      repeat' split
      all_goals simp_all
  · intro v hv
    rcases vote_snd_mem (rfl : vote pe now db token form = _) v hv
      with h | ⟨_, hn, _⟩
    · exact Or.inl h
    · exact Or.inr hn
  · simp [strTake]

/-- Witness for C7: the 100-character name is not rejected and the row
written for it carries the 80-character truncation. -/
theorem C7_witness :
    ((vote pe0 0 db0 "t" longNameForm).1 = .nameRequired ↔
      strTrim longNameForm.participantName = "") ∧
      (insertRow 1 1 longNameForm ∈ db0.votes ∨
        (insertRow 1 1 longNameForm).participantName =
          strTake (strTrim longNameForm.participantName) 80) :=
  ⟨(C7_name_validation pe0 0 db0 "t" longNameForm poll1
      (by decide) rfl rfl).1,
   (C7_name_validation pe0 0 db0 "t" longNameForm poll1
      (by decide) rfl rfl).2.1 (insertRow 1 1 longNameForm) (by decide)⟩

/-- Characterization of the duplicate lookup: it finds a row exactly when
a row of the poll matches the non-empty normalized email exactly, or,
with no email, when an empty-email row of the poll matches the name
case-insensitively. -/
theorem duplicateVoteExists_iff (votes : List VoteRow) (pollId : Nat)
    (name email : String) :
    duplicateVoteExists votes pollId name email = true ↔
      ((email ≠ "" ∧
          ∃ v ∈ votes, v.pollId = pollId ∧ v.participantEmail = email) ∨
        (email = "" ∧
          ∃ v ∈ votes, v.pollId = pollId ∧ v.participantEmail = "" ∧
            strToLower v.participantName = strToLower name)) := by
  unfold duplicateVoteExists
  by_cases he : email = ""
  · simp [he, List.any_eq_true, and_assoc]
  · simp [he, List.any_eq_true, and_assoc]

/-- The claim-side duplicate condition coincides with the lookup the code
runs on the normalized email. -/
theorem duplicateSpec_iff (votes : List VoteRow) (pollId : Nat)
    (name rawEmail : String) :
    duplicateSpec votes pollId name rawEmail ↔
      duplicateVoteExists votes pollId name
        (strToLower (strTrim rawEmail)) = true := by
  unfold duplicateSpec
  rw [duplicateVoteExists_iff]

set_option maxHeartbeats 1000000 in
/-- Claim C4: a submission that reaches the duplicate check (poll found,
deadline open, consent given, non-empty trimmed name, empty or well-formed
email, options present) and does not carry the replace flag is rejected
as a duplicate exactly under the spec condition: a non-empty email
matching some row of the poll after trim-and-lowercase normalization, or
no email and an empty-email row of the poll with a case-insensitively
equal name.  In particular a named-only submission never matches an
emailed row and vice versa. -/
theorem C4_duplicate_detection (pe : String → Option Int) (now : Int)
    (db : Db) (token : String) (form : VoteForm) (poll : Poll)
    (hfind : db.polls.find? (fun p => p.token == token) = some poll)
    (hdl : is_deadline_passed pe now poll.deadlineAt = false)
    (hrgpd : form.rgpdVote = true)
    (hname : ¬ strTrim form.participantName = "")
    (hemail : strToLower (strTrim form.participantEmail) = "" ∨
      emailRegexMatch (strToLower (strTrim form.participantEmail)) = true)
    (hslots : ¬ getPollSlots db.slots poll.id = [])
    (hrepl : form.replaceExistingVote = false) :
    ((vote pe now db token form).1 = .duplicateVote ↔
      duplicateSpec db.votes poll.id
        (strTake (strTrim form.participantName) 80)
        form.participantEmail) := by
  have hcond : (decide (strToLower (strTrim form.participantEmail) ≠ "") &&
      !emailRegexMatch (strToLower (strTrim form.participantEmail)))
        = false := by
    rcases hemail with h | h <;> simp [h]
  rw [duplicateSpec_iff]
  unfold vote
  simp only [hfind, hdl, hrgpd, Bool.not_true, Bool.false_eq_true, if_false,
    hname, if_neg hname, hcond, if_neg hslots, hrepl, Bool.not_false,
    Bool.and_true]
  by_cases hdup : duplicateVoteExists db.votes poll.id
      (strTake (strTrim form.participantName) 80)
      (strToLower (strTrim form.participantEmail)) = true
  · simp [hdup]
  · simp only [hdup, Bool.false_eq_true, if_false]
    constructor
    · intro hcon
      exfalso
      revert hcon
      repeat' split
      all_goals (intro hcon; cases hcon)
    · intro hspec
      exact hspec.elim

/-- Witness for C4: Alice written in capitals, without email and without
the replace flag, against the table where Alice already voted. -/
theorem C4_witness :
    ((vote pe0 0 db1 "t" aliceAgainForm).1 = .duplicateVote ↔
      duplicateSpec db1.votes 1
        (strTake (strTrim aliceAgainForm.participantName) 80)
        aliceAgainForm.participantEmail) :=
  C4_duplicate_detection pe0 0 db1 "t" aliceAgainForm poll1 (by decide)
    rfl rfl (by decide) (Or.inl rfl) (by decide) rfl

/-- Counterexample to claim C5 as stated: Bob posts the foreign option id
999 to the multiple-mode poll2, whose only option id is 3; the submission
is recorded, not rejected during validation. -/
theorem C5_counterexample :
    (vote pe0 0 db2 "u" bobForm).1 = .recorded ∧
      ((getPollSlots db2.slots 2).map Slot.id).contains 999 = false := by
  decide

set_option maxHeartbeats 1000000 in
/-- Claim C5 amended: in multiple mode a submission that passes the
earlier validations is accepted, and posted option ids that are not
digits or do not belong to this poll are silently dropped: every row the
request writes names a slot of the poll that was among the parsed posted
ids. -/
theorem C5_amended_multiple_filters (pe : String → Option Int) (now : Int)
    (db : Db) (token : String) (form : VoteForm) (poll : Poll)
    (hfind : db.polls.find? (fun p => p.token == token) = some poll)
    (hdl : is_deadline_passed pe now poll.deadlineAt = false)
    (hrgpd : form.rgpdVote = true)
    (hname : ¬ strTrim form.participantName = "")
    (hemail : strToLower (strTrim form.participantEmail) = "" ∨
      emailRegexMatch (strToLower (strTrim form.participantEmail)) = true)
    (hslots : ¬ getPollSlots db.slots poll.id = [])
    (hdup : (duplicateVoteExists db.votes poll.id
        (strTake (strTrim form.participantName) 80)
        (strToLower (strTrim form.participantEmail)) &&
        !form.replaceExistingVote) = false)
    (hmode : normalize_response_mode (some poll.responseMode) = "multiple") :
    ((vote pe now db token form).1 = .updated ∨
      (vote pe now db token form).1 = .recorded) ∧
      ∀ v ∈ (vote pe now db token form).2,
        v ∈ db.votes ∨
          (v.slotId ∈ (getPollSlots db.slots poll.id).map Slot.id ∧
            v.slotId ∈ form.selectedSlots.filterMap strToNatQ) := by
  have hmode' : ¬ normalize_response_mode (some poll.responseMode)
      = "single" := by
    rw [hmode]
    decide
  have hcond : (decide (strToLower (strTrim form.participantEmail) ≠ "") &&
      !emailRegexMatch (strToLower (strTrim form.participantEmail)))
        = false := by
    rcases hemail with h | h <;> simp [h]
  unfold vote
  simp only [hfind, hdl, hrgpd, Bool.not_true, Bool.false_eq_true, if_false,
    hname, if_neg hname, hcond, if_neg hslots, hdup, if_neg hmode']
  constructor
  · split
    · exact Or.inl rfl
    · exact Or.inr rfl
  · intro v hv
    rcases List.mem_append.mp hv with hm | hm
    · revert hm
      split
      · intro hm
        exact Or.inl (mem_of_mem_deleteBallot hm)
      · intro hm
        exact Or.inl hm
    · unfold multipleModeRows at hm
      rcases List.mem_filterMap.mp hm with ⟨slot, hslot, heq⟩
      split at heq
      case isTrue hsel =>
        injection heq with h2
        subst h2
        refine Or.inr ⟨List.mem_map.mpr ⟨slot, hslot, rfl⟩, ?_⟩
        unfold selectedMultiple at hsel
        have hmem : slot.id ∈ (form.selectedSlots.filterMap strToNatQ).filter
            (fun slotId =>
              ((getPollSlots db.slots poll.id).map Slot.id).contains slotId)
              := by
          simpa using hsel
        exact (List.mem_filter.mp hmem).1
      case isFalse => cases heq

/-- Witness for the amended C5: Bob posts the real option 3 together with
the foreign id 999; the vote is recorded and the single row written names
option 3, which the poll owns and Bob posted. -/
theorem C5_witness :
    ((vote pe0 0 db2 "u" bobBothForm).1 = .updated ∨
      (vote pe0 0 db2 "u" bobBothForm).1 = .recorded) ∧
      (insertRow 2 3 bobBothForm ∈ db2.votes ∨
        ((insertRow 2 3 bobBothForm).slotId ∈
            (getPollSlots db2.slots 2).map Slot.id ∧
          (insertRow 2 3 bobBothForm).slotId ∈
            bobBothForm.selectedSlots.filterMap strToNatQ)) :=
  ⟨(C5_amended_multiple_filters pe0 0 db2 "u" bobBothForm poll2 (by decide)
      rfl rfl (by decide) (Or.inl rfl) (by decide) (by decide) (by decide)).1,
   (C5_amended_multiple_filters pe0 0 db2 "u" bobBothForm poll2 (by decide)
      rfl rfl (by decide) (Or.inl rfl) (by decide) (by decide) (by decide)).2
      (insertRow 2 3 bobBothForm) (by decide)⟩
